import Mathlib

/-!
Shallow embedding of `src/components/SchemaAnalyzer.tsx` from the caspit
repository.

The only algorithmic code in the repository is the `analyzeSchema` handler of
the `SchemaAnalyzer` React component.  It checks whether the active input
(textarea in "code" mode, URL field otherwise) is empty after trimming; if so
it emits a destructive toast and returns early.  Otherwise it sets
`isAnalyzing`, awaits a 2000 ms timer, assigns the constant `mockResults` and
`mockSuggestions` arrays to component state, clears `isAnalyzing` and emits a
success toast.  We embed the handler as a pure function from its inputs to the
ordered list of effects it performs, and the component state transition as a
fold of those effects over a `ComponentState` record.

Braces inside the embedded JSON string literals are written `\x7b` / `\x7d`.
-/

set_option maxRecDepth 100000

namespace Caspit

/-- Issue severity, from the `level: 'error' | 'warning' | 'info'` union in the
`SchemaResult` interface. -/
inductive Level where
  | error
  | warning
  | info
deriving DecidableEq

/-- One entry of `SchemaResult.issues`. -/
structure Issue where
  level : Level
  message : String
deriving DecidableEq

/-- The `SchemaResult` interface of `SchemaAnalyzer.tsx` (lines 11-20). -/
structure SchemaResult where
  type : String
  valid : Bool
  issues : List Issue
  recommendations : List String
  suggestedSchema : Option String
deriving DecidableEq

/-- The `SchemaSuggestion` interface of `SchemaAnalyzer.tsx` (lines 22-26). -/
structure SchemaSuggestion where
  name : String
  description : String
  code : String
deriving DecidableEq

/-- `suggestedSchema` template literal of the Organization mock result
(lines 67-85). -/
def orgSuggestedSchemaStr : String :=
  "\x7b\n  \"@context\": \"https://schema.org\",\n  \"@type\": \"Organization\",\n  \"name\": \"Your Business Name\",\n  \"url\": \"https://yourbusiness.com\",\n  \"telephone\": \"+1-555-123-4567\",\n  \"address\": \x7b\n    \"@type\": \"PostalAddress\",\n    \"streetAddress\": \"123 Business St\",\n    \"addressLocality\": \"City\",\n    \"addressRegion\": \"State\",\n    \"postalCode\": \"12345\",\n    \"addressCountry\": \"US\"\n  \x7d,\n  \"sameAs\": [\n    \"https://facebook.com/yourbusiness\",\n    \"https://twitter.com/yourbusiness\"\n  ]\n\x7d"

/-- `suggestedSchema` template literal of the Product mock result
(lines 100-115). -/
def productSuggestedSchemaStr : String :=
  "\x7b\n  \"@context\": \"https://schema.org\",\n  \"@type\": \"Product\",\n  \"name\": \"Product Name\",\n  \"brand\": \x7b\n    \"@type\": \"Brand\",\n    \"name\": \"Brand Name\"\n  \x7d,\n  \"description\": \"Product description\",\n  \"offers\": \x7b\n    \"@type\": \"Offer\",\n    \"price\": \"19.99\",\n    \"priceCurrency\": \"USD\",\n    \"availability\": \"https://schema.org/InStock\"\n  \x7d\n\x7d"

/-- `code` template of the Article mock suggestion (lines 124-143). -/
def articleCode : String :=
  "\x7b\n  \"@context\": \"https://schema.org\",\n  \"@type\": \"Article\",\n  \"headline\": \"Your Article Title\",\n  \"author\": \x7b\n    \"@type\": \"Person\",\n    \"name\": \"Author Name\"\n  \x7d,\n  \"datePublished\": \"2024-01-01\",\n  \"dateModified\": \"2024-01-01\",\n  \"image\": \"https://example.com/image.jpg\",\n  \"publisher\": \x7b\n    \"@type\": \"Organization\",\n    \"name\": \"Publisher Name\",\n    \"logo\": \x7b\n      \"@type\": \"ImageObject\",\n      \"url\": \"https://example.com/logo.jpg\"\n    \x7d\n  \x7d\n\x7d"

/-- `code` template of the LocalBusiness mock suggestion (lines 148-162). -/
def localBusinessCode : String :=
  "\x7b\n  \"@context\": \"https://schema.org\",\n  \"@type\": \"LocalBusiness\",\n  \"name\": \"Business Name\",\n  \"address\": \x7b\n    \"@type\": \"PostalAddress\",\n    \"streetAddress\": \"123 Main St\",\n    \"addressLocality\": \"City\",\n    \"addressRegion\": \"State\",\n    \"postalCode\": \"12345\"\n  \x7d,\n  \"telephone\": \"+1-555-123-4567\",\n  \"openingHours\": \"Mo-Fr 09:00-17:00\",\n  \"priceRange\": \"$$\"\n\x7d"

/-- `code` template of the FAQPage mock suggestion (lines 167-180). -/
def faqPageCode : String :=
  "\x7b\n  \"@context\": \"https://schema.org\",\n  \"@type\": \"FAQPage\",\n  \"mainEntity\": [\n    \x7b\n      \"@type\": \"Question\",\n      \"name\": \"What is schema markup?\",\n      \"acceptedAnswer\": \x7b\n        \"@type\": \"Answer\",\n        \"text\": \"Schema markup is structured data that helps search engines understand your content better.\"\n      \x7d\n    \x7d\n  ]\n\x7d"

/-- `code` template of the Review mock suggestion (lines 185-202). -/
def reviewCode : String :=
  "\x7b\n  \"@context\": \"https://schema.org\",\n  \"@type\": \"Review\",\n  \"itemReviewed\": \x7b\n    \"@type\": \"Product\",\n    \"name\": \"Product Name\"\n  \x7d,\n  \"author\": \x7b\n    \"@type\": \"Person\",\n    \"name\": \"Reviewer Name\"\n  \x7d,\n  \"reviewRating\": \x7b\n    \"@type\": \"Rating\",\n    \"ratingValue\": \"5\",\n    \"bestRating\": \"5\"\n  \x7d,\n  \"reviewBody\": \"Great product, highly recommended!\"\n\x7d"

/-- The constant `mockResults` array assigned by `analyzeSchema` on every
completed run (lines 55-117). -/
def mockResults : List SchemaResult :=
  [ { type := "Organization"
    , valid := true
    , issues :=
        [ { level := Level.warning
          , message := "Missing \"telephone\" property for better local SEO" }
        , { level := Level.info
          , message := "Consider adding \"sameAs\" for social media profiles" } ]
    , recommendations :=
        [ "Add telephone number for local business optimization"
        , "Include social media profile URLs in \"sameAs\" array" ]
    , suggestedSchema := some orgSuggestedSchemaStr }
  , { type := "Product"
    , valid := false
    , issues :=
        [ { level := Level.error
          , message := "Required property \"name\" is missing" }
        , { level := Level.error
          , message := "Invalid price format - should be numeric" }
        , { level := Level.warning
          , message := "Missing \"brand\" property" } ]
    , recommendations :=
        [ "Add required \"name\" property to Product schema"
        , "Format price as numeric value (e.g., \"19.99\")"
        , "Include brand information for better product visibility" ]
    , suggestedSchema := some productSuggestedSchemaStr } ]

/-- The constant `mockSuggestions` array assigned by `analyzeSchema` on every
completed run (lines 120-204). -/
def mockSuggestions : List SchemaSuggestion :=
  [ { name := "Article"
    , description := "For blog posts, news articles, and editorial content"
    , code := articleCode }
  , { name := "LocalBusiness"
    , description := "For local businesses with physical locations"
    , code := localBusinessCode }
  , { name := "FAQPage"
    , description := "For FAQ pages and question-answer content"
    , code := faqPageCode }
  , { name := "Review"
    , description := "For product reviews and ratings"
    , code := reviewCode } ]

/-- An observable effect performed by the `analyzeSchema` handler: a toast
notification, a state-setter call, or the awaited `setTimeout` promise. -/
inductive Effect where
  | toast (title description : String) (destructive : Bool)
  | setIsAnalyzing (b : Bool)
  | setResults (rs : List SchemaResult)
  | setSuggestions (ss : List SchemaSuggestion)
  | awaitDelay (ms : Nat)
deriving DecidableEq

/-- Whitespace as removed by JavaScript `String.prototype.trim` (restricted to
the ASCII whitespace characters that can occur in the embedded inputs). -/
def isWhitespaceChar (c : Char) : Bool :=
  c == ' ' || c == '\t' || c == '\n' || c == '\r'

/-- Drop leading whitespace characters. -/
def dropLeadingWs : List Char → List Char
  | [] => []
  | c :: cs => if isWhitespaceChar c then dropLeadingWs cs else c :: cs

/-- JavaScript `s.trim()`: remove whitespace from both ends of the string. -/
def jsTrim (s : String) : String :=
  String.mk (List.reverse (dropLeadingWs (List.reverse (dropLeadingWs s.data))))

/-- Line 38: `const inputEmpty = activeTab === "code" ? !code.trim() : !url.trim()`.
In JavaScript `!s` on a string is true exactly when the string is empty. -/
def inputEmpty (activeTab code url : String) : Bool :=
  if activeTab == "code" then jsTrim code == "" else jsTrim url == ""

/-- The `analyzeSchema` handler (lines 37-214) as the ordered list of effects
it performs, as a function of the three state values it reads.  The empty-input
branch emits one destructive toast and returns; the main branch sets
`isAnalyzing`, awaits the 2000 ms timer, assigns the two constant arrays,
clears `isAnalyzing` and emits the completion toast. -/
def analyzeSchema (activeTab code url : String) : List Effect :=
  if inputEmpty activeTab code url then
    [ Effect.toast
        (if activeTab == "code" then "No code provided" else "No URL provided")
        (if activeTab == "code" then "Please enter some HTML code to analyze"
         else "Please enter a website URL to analyze")
        true ]
  else
    [ Effect.setIsAnalyzing true
    , Effect.awaitDelay 2000
    , Effect.setResults mockResults
    , Effect.setSuggestions mockSuggestions
    , Effect.setIsAnalyzing false
    , Effect.toast "Analysis complete"
        ("Found " ++ toString mockResults.length ++ " schema types and "
          ++ toString mockSuggestions.length ++ " suggestions")
        false ]

/-- The component state held in the `useState` hooks (lines 29-35), plus the
list of toasts emitted so far. -/
structure ComponentState where
  code : String
  url : String
  activeTab : String
  results : List SchemaResult
  suggestions : List SchemaSuggestion
  isAnalyzing : Bool
  toasts : List (String × String × Bool)
deriving DecidableEq

/-- Initial component state: the `useState` initial values of lines 29-34. -/
def initState : ComponentState :=
  { code := ""
  , url := ""
  , activeTab := "code"
  , results := []
  , suggestions := []
  , isAnalyzing := false
  , toasts := [] }

/-- Interpretation of one effect as a state transition.  Setter effects update
the corresponding field; a toast is appended to the toast log; the awaited
delay does not change component state. -/
def applyEffect (s : ComponentState) (e : Effect) : ComponentState :=
  match e with
  | Effect.toast t d dest => { s with toasts := s.toasts ++ [(t, d, dest)] }
  | Effect.setIsAnalyzing b => { s with isAnalyzing := b }
  | Effect.setResults rs => { s with results := rs }
  | Effect.setSuggestions ss => { s with suggestions := ss }
  | Effect.awaitDelay _ => s

/-- Run one full `analyzeSchema` invocation to completion from state `s`. -/
def runAnalyze (s : ComponentState) : ComponentState :=
  (analyzeSchema s.activeTab s.code s.url).foldl applyEffect s

/-- The sequence of values the handler assigns to the `results` state. -/
def resultsAssigned (activeTab code url : String) : List (List SchemaResult) :=
  (analyzeSchema activeTab code url).filterMap fun e =>
    match e with
    | Effect.setResults rs => some rs
    | _ => none

/-- The sequence of values the handler assigns to the `suggestions` state. -/
def suggestionsAssigned (activeTab code url : String) :
    List (List SchemaSuggestion) :=
  (analyzeSchema activeTab code url).filterMap fun e =>
    match e with
    | Effect.setSuggestions ss => some ss
    | _ => none

/-- The durations of the timers the handler awaits. -/
def delaysAwaited (activeTab code url : String) : List Nat :=
  (analyzeSchema activeTab code url).filterMap fun e =>
    match e with
    | Effect.awaitDelay ms => some ms
    | _ => none

/-- Number of error-level issues of a result. -/
def errorCount (r : SchemaResult) : Nat :=
  (r.issues.filter fun i => i.level == Level.error).length

/-- Severity rank: errors sort before warnings before info. -/
def levelRank : Level → Nat
  | Level.error => 0
  | Level.warning => 1
  | Level.info => 2

/-- Whether an issue list is ordered by non-decreasing severity rank, i.e.
all errors before all warnings before all info entries. -/
def issuesOrdered : List Issue → Bool
  | [] => true
  | [_] => true
  | a :: b :: rest =>
      Nat.ble (levelRank a.level) (levelRank b.level) && issuesOrdered (b :: rest)

/-- Whether the pattern occurs at the head of the character list. -/
def matchesAt : List Char → List Char → Bool
  | [], _ => true
  | _ :: _, [] => false
  | p :: ps, c :: cs => p == c && matchesAt ps cs

/-- Number of occurrences of a pattern in a character list (at any offset). -/
def countOccs (pat : List Char) : List Char → Nat
  | [] => 0
  | c :: cs => (if matchesAt pat (c :: cs) then 1 else 0) + countOccs pat cs

/-- Modelled from the spec: the Extractor of the hypothetical validation engine
(spec section 4.1) locates JSON-LD blocks by their structural marker via a
text-level scan.  The repository contains no extractor, so the number of
well-formed JSON-LD blocks in an HTML input is modelled as the number of
occurrences of the JSON-LD script-block opening marker. -/
def countJsonLdBlocks (html : String) : Nat :=
  countOccs "<script type=\"application/ld+json\">".data html.data

/-- The single JSON-LD object used as input in the spec's Product example
(spec section 8). -/
def c5Input : String :=
  "\x7b\"@context\":\"https://schema.org\",\"@type\":\"Product\",\"offers\":\x7b\"price\":\"nineteen\"\x7d\x7d"

/-- An HTML input containing exactly one well-formed JSON-LD block. -/
def oneBlockInput : String :=
  "<script type=\"application/ld+json\">\x7b\"@context\":\"https://schema.org\",\"@type\":\"Organization\",\"name\":\"Acme\"\x7d</script>"

/-- A component state holding a previous analysis output, with whitespace-only
code input in code mode. -/
def staleState : ComponentState :=
  { code := "   "
  , url := ""
  , activeTab := "code"
  , results := mockResults
  , suggestions := mockSuggestions
  , isAnalyzing := false
  , toasts := [] }

/-- On empty input the handler emits exactly one destructive toast. -/
theorem analyzeSchema_of_empty (tab c u : String) (h : inputEmpty tab c u = true) :
    analyzeSchema tab c u =
      [ Effect.toast
          (if tab == "code" then "No code provided" else "No URL provided")
          (if tab == "code" then "Please enter some HTML code to analyze"
           else "Please enter a website URL to analyze")
          true ] := by
  simp [analyzeSchema, h]

/-- On non-empty input the handler performs the fixed effect sequence. -/
theorem analyzeSchema_of_nonempty (tab c u : String)
    (h : inputEmpty tab c u = false) :
    analyzeSchema tab c u =
      [ Effect.setIsAnalyzing true
      , Effect.awaitDelay 2000
      , Effect.setResults mockResults
      , Effect.setSuggestions mockSuggestions
      , Effect.setIsAnalyzing false
      , Effect.toast "Analysis complete"
          ("Found " ++ toString mockResults.length ++ " schema types and "
            ++ toString mockSuggestions.length ++ " suggestions")
          false ] := by
  simp [analyzeSchema, h]

/-- On empty input nothing is ever assigned to `results`. -/
theorem resultsAssigned_of_empty (tab c u : String)
    (h : inputEmpty tab c u = true) : resultsAssigned tab c u = [] := by
  unfold resultsAssigned
  rw [analyzeSchema_of_empty tab c u h]
  rfl

/-- On non-empty input exactly the constant `mockResults` array is assigned to
`results`. -/
theorem resultsAssigned_of_nonempty (tab c u : String)
    (h : inputEmpty tab c u = false) :
    resultsAssigned tab c u = [mockResults] := by
  unfold resultsAssigned
  rw [analyzeSchema_of_nonempty tab c u h]
  rfl

/-- On non-empty input exactly the constant `mockSuggestions` array is assigned
to `suggestions`. -/
theorem suggestionsAssigned_of_nonempty (tab c u : String)
    (h : inputEmpty tab c u = false) :
    suggestionsAssigned tab c u = [mockSuggestions] := by
  unfold suggestionsAssigned
  rw [analyzeSchema_of_nonempty tab c u h]
  rfl

/-- Claim C1: for every SchemaResult produced by an analysis, the `valid` flag
is true if and only if the result's issues list contains zero issues of level
`error` (over the constant result objects the analyzer returns: Organization
with valid=true and only warning/info issues, Product with valid=false and two
error issues). -/
theorem C1_valid_iff_no_error_issues (tab c u : String) (rs : List SchemaResult)
    (hrs : rs ∈ resultsAssigned tab c u) (r : SchemaResult) (hr : r ∈ rs) :
    r.valid = true ↔ errorCount r = 0 := by
  cases hb : inputEmpty tab c u with
  | true =>
      rw [resultsAssigned_of_empty tab c u hb] at hrs
      exact absurd hrs (List.not_mem_nil rs)
  | false =>
      rw [resultsAssigned_of_nonempty tab c u hb, List.mem_singleton] at hrs
      subst hrs
      simp only [mockResults, List.mem_cons, List.mem_singleton,
        List.not_mem_nil, or_false] at hr
      rcases hr with rfl | rfl <;> decide

/-- Witness for C1 at a concrete non-empty input and the Product result. -/
theorem C1_valid_iff_no_error_issues_witness :
    (mockResults.get ⟨1, by decide⟩).valid = true ↔
      errorCount (mockResults.get ⟨1, by decide⟩) = 0 :=
  C1_valid_iff_no_error_issues "code" "x" "" mockResults (by decide)
    (mockResults.get ⟨1, by decide⟩) (by decide)

/-- Claim C2: calling the analysis on identical (indeed arbitrary) non-empty
inputs yields identical effect sequences and identical assigned result
sequences, always equal to the constant `mockResults`: the output contains no
randomness or timestamps and does not depend on the input. -/
theorem C2_analysis_deterministic (tab c u tab2 c2 u2 : String)
    (h1 : inputEmpty tab c u = false) (h2 : inputEmpty tab2 c2 u2 = false) :
    analyzeSchema tab c u = analyzeSchema tab2 c2 u2 ∧
    resultsAssigned tab c u = resultsAssigned tab2 c2 u2 ∧
    resultsAssigned tab c u = [mockResults] := by
  rw [analyzeSchema_of_nonempty tab c u h1,
    analyzeSchema_of_nonempty tab2 c2 u2 h2,
    resultsAssigned_of_nonempty tab c u h1,
    resultsAssigned_of_nonempty tab2 c2 u2 h2]
  exact ⟨rfl, rfl, rfl⟩

/-- Witness for C2: two invocations on the same non-empty input. -/
theorem C2_analysis_deterministic_witness :
    analyzeSchema "code" "x" "" = analyzeSchema "code" "x" "" ∧
    resultsAssigned "code" "x" "" = resultsAssigned "code" "x" "" ∧
    resultsAssigned "code" "x" "" = [mockResults] :=
  C2_analysis_deterministic "code" "x" "" "code" "x" "" (by decide) (by decide)

/-- Claim C3: every completed analysis assigns the fixed pair of pre-written
constant arrays — the single constant `mockResults` array to `results` and the
single constant `mockSuggestions` array to `suggestions` — for all non-empty
inputs, with no computed content. -/
theorem C3_constant_result_arrays (tab c u : String)
    (h : inputEmpty tab c u = false) :
    resultsAssigned tab c u = [mockResults] ∧
    suggestionsAssigned tab c u = [mockSuggestions] :=
  ⟨resultsAssigned_of_nonempty tab c u h,
   suggestionsAssigned_of_nonempty tab c u h⟩

/-- Witness for C3 at a concrete non-empty input. -/
theorem C3_constant_result_arrays_witness :
    resultsAssigned "code" "y" "" = [mockResults] ∧
    suggestionsAssigned "code" "y" "" = [mockSuggestions] :=
  C3_constant_result_arrays "code" "y" "" (by decide)

/-- Claim C4: for every non-empty input, the analysis awaits exactly one fixed
timer whose duration constant equals 2000 milliseconds, followed by assigning
the static pre-written result objects, whose content does not depend on the
elapsed time. -/
theorem C4_fixed_two_second_delay (tab c u : String)
    (h : inputEmpty tab c u = false) :
    delaysAwaited tab c u = [2000] ∧
    analyzeSchema tab c u =
      [ Effect.setIsAnalyzing true
      , Effect.awaitDelay 2000
      , Effect.setResults mockResults
      , Effect.setSuggestions mockSuggestions
      , Effect.setIsAnalyzing false
      , Effect.toast "Analysis complete"
          "Found 2 schema types and 4 suggestions" false ] := by
  constructor
  · unfold delaysAwaited
    rw [analyzeSchema_of_nonempty tab c u h]
    rfl
  · rw [analyzeSchema_of_nonempty tab c u h]
    decide

/-- Witness for C4 at a concrete non-empty input. -/
theorem C4_fixed_two_second_delay_witness :
    delaysAwaited "code" "z" "" = [2000] ∧
    analyzeSchema "code" "z" "" =
      [ Effect.setIsAnalyzing true
      , Effect.awaitDelay 2000
      , Effect.setResults mockResults
      , Effect.setSuggestions mockSuggestions
      , Effect.setIsAnalyzing false
      , Effect.toast "Analysis complete"
          "Found 2 schema types and 4 suggestions" false ] :=
  C4_fixed_two_second_delay "code" "z" "" (by decide)

/-- Counterexample to C5 as stated: on the spec's Product example input the
analysis assigns two ValidationResults, not exactly one. -/
theorem C5_counterexample :
    (runAnalyze { initState with code := c5Input }).results = mockResults ∧
    (runAnalyze { initState with code := c5Input }).results.length = 2 ∧
    ¬((runAnalyze { initState with code := c5Input }).results.length = 1) := by
  decide

/-- Claim C5 as amended: on the Product example input the analysis returns the
two constant results; among them is one of type Product with valid=false whose
issues include the error that the required property "name" is missing and the
error that the price format is invalid. -/
theorem C5_product_example_amended :
    (runAnalyze { initState with code := c5Input }).results = mockResults ∧
    (runAnalyze { initState with code := c5Input }).results.length = 2 ∧
    ∃ r ∈ (runAnalyze { initState with code := c5Input }).results,
      r.type = "Product" ∧ r.valid = false ∧
      (∃ i ∈ r.issues, i.level = Level.error ∧
        i.message = "Required property \"name\" is missing") ∧
      (∃ i ∈ r.issues, i.level = Level.error ∧
        i.message = "Invalid price format - should be numeric") := by
  decide

/-- Counterexample to C6 as stated: feeding the Product result's
`suggestedSchema` back into the analysis does not yield zero error-level issues
for the Product entity — the constant output contains a Product result with
error-level issues. -/
theorem C6_counterexample :
    (mockResults.get? 1).bind SchemaResult.suggestedSchema =
      some productSuggestedSchemaStr ∧
    (runAnalyze { initState with code := productSuggestedSchemaStr }).results =
      mockResults ∧
    ¬(∀ r ∈ (runAnalyze
        { initState with code := productSuggestedSchemaStr }).results,
        r.type = "Product" → errorCount r = 0) := by
  decide

/-- Claim C6 as amended: feeding any `suggestedSchema` carried by an analysis
result back into the analysis yields the same constant `mockResults` array as
any other non-empty input, and that array contains a Product result with two
error-level issues, so the round-trip is not error-free for that entity. -/
theorem C6_roundtrip_yields_constants (r : SchemaResult) (hr : r ∈ mockResults)
    (s : String) (hs : r.suggestedSchema = some s) :
    resultsAssigned "code" s "" = [mockResults] ∧
    ∃ r2 ∈ mockResults, r2.type = "Product" ∧ errorCount r2 = 2 := by
  refine ⟨?_, by decide⟩
  simp only [mockResults, List.mem_cons, List.mem_singleton,
    List.not_mem_nil, or_false] at hr
  rcases hr with rfl | rfl <;>
    (injection hs with h; subst h; decide)

/-- Witness for C6 (amended) at the Product result. -/
theorem C6_roundtrip_yields_constants_witness :
    resultsAssigned "code" productSuggestedSchemaStr "" = [mockResults] ∧
    ∃ r2 ∈ mockResults, r2.type = "Product" ∧ errorCount r2 = 2 :=
  C6_roundtrip_yields_constants (mockResults.get ⟨1, by decide⟩) (by decide)
    productSuggestedSchemaStr (by decide)

/-- Counterexample to C7 as stated: an input containing exactly one well-formed
JSON-LD block yields two results, not one. -/
theorem C7_counterexample :
    countJsonLdBlocks oneBlockInput = 1 ∧
    (runAnalyze { initState with code := oneBlockInput }).results.length = 2 ∧
    ¬((runAnalyze { initState with code := oneBlockInput }).results.length =
        countJsonLdBlocks oneBlockInput) := by
  decide

/-- Claim C7 as amended: for every non-empty input, independent of how many
JSON-LD blocks it contains, the analysis assigns exactly one results array and
that array has exactly two entries. -/
theorem C7_always_two_results (tab c u : String)
    (h : inputEmpty tab c u = false) :
    (resultsAssigned tab c u).map List.length = [2] := by
  rw [resultsAssigned_of_nonempty tab c u h]
  decide

/-- Witness for C7 (amended) at a concrete non-empty input. -/
theorem C7_always_two_results_witness :
    (resultsAssigned "code" oneBlockInput "").map List.length = [2] :=
  C7_always_two_results "code" oneBlockInput "" (by decide)

/-- Claim C8: in every SchemaResult returned by the analysis, the issues list
is ordered by level, all error issues before all warning issues before all
info issues. -/
theorem C8_issues_ordered_by_level (tab c u : String) (rs : List SchemaResult)
    (hrs : rs ∈ resultsAssigned tab c u) (r : SchemaResult) (hr : r ∈ rs) :
    issuesOrdered r.issues = true := by
  cases hb : inputEmpty tab c u with
  | true =>
      rw [resultsAssigned_of_empty tab c u hb] at hrs
      exact absurd hrs (List.not_mem_nil rs)
  | false =>
      rw [resultsAssigned_of_nonempty tab c u hb, List.mem_singleton] at hrs
      subst hrs
      simp only [mockResults, List.mem_cons, List.mem_singleton,
        List.not_mem_nil, or_false] at hr
      rcases hr with rfl | rfl <;> decide

/-- Witness for C8 at a concrete non-empty input and the Organization result. -/
theorem C8_issues_ordered_by_level_witness :
    issuesOrdered (mockResults.get ⟨0, by decide⟩).issues = true :=
  C8_issues_ordered_by_level "code" "x" "" mockResults (by decide)
    (mockResults.get ⟨0, by decide⟩) (by decide)

/-- Claim C9: empty or whitespace-only input (empty code text in code mode,
empty URL otherwise) makes `analyzeSchema` return early: it emits only one
destructive error toast and assigns no results. -/
theorem C9_empty_input_early_return (tab c u : String)
    (h : inputEmpty tab c u = true) :
    analyzeSchema tab c u =
      [ Effect.toast
          (if tab == "code" then "No code provided" else "No URL provided")
          (if tab == "code" then "Please enter some HTML code to analyze"
           else "Please enter a website URL to analyze")
          true ] ∧
    resultsAssigned tab c u = [] :=
  ⟨analyzeSchema_of_empty tab c u h, resultsAssigned_of_empty tab c u h⟩

/-- Witness for C9 at whitespace-only code input in code mode. -/
theorem C9_empty_input_early_return_witness :
    analyzeSchema "code" "   " "x" =
      [Effect.toast "No code provided"
        "Please enter some HTML code to analyze" true] ∧
    resultsAssigned "code" "   " "x" = [] :=
  C9_empty_input_early_return "code" "   " "x" (by decide)

/-- Claim C10: when `analyzeSchema` rejects empty or whitespace-only input, the
component state is unchanged apart from the toast log — `results` and
`suggestions` keep their previous values and `isAnalyzing` is never set to
true. -/
theorem C10_empty_input_preserves_state (s : ComponentState)
    (h : inputEmpty s.activeTab s.code s.url = true) :
    (runAnalyze s).results = s.results ∧
    (runAnalyze s).suggestions = s.suggestions ∧
    (runAnalyze s).isAnalyzing = s.isAnalyzing ∧
    ∀ e ∈ analyzeSchema s.activeTab s.code s.url,
      e ≠ Effect.setIsAnalyzing true := by
  unfold runAnalyze
  rw [analyzeSchema_of_empty s.activeTab s.code s.url h]
  refine ⟨rfl, rfl, rfl, ?_⟩
  intro e he
  rw [List.mem_singleton] at he
  subst he
  intro hcontra
  exact Effect.noConfusion hcontra

/-- Witness for C10 at a state holding previous results, with whitespace-only
code input. -/
theorem C10_empty_input_preserves_state_witness :
    (runAnalyze staleState).results = mockResults ∧
    (runAnalyze staleState).suggestions = mockSuggestions ∧
    (runAnalyze staleState).isAnalyzing = false :=
  ⟨(C10_empty_input_preserves_state staleState (by decide)).1,
   (C10_empty_input_preserves_state staleState (by decide)).2.1,
   (C10_empty_input_preserves_state staleState (by decide)).2.2.1⟩

end Caspit
